import Mathlib

/-
Verification of src/state.py : a recursive-merge mechanism for nested,
mapping-shaped mutable state (classes Updater, Updatable, State, StateDict,
View, History).

Shallow embedding.  A Python dict is modelled as an insertion-ordered
association list with unique keys (operations preserve the uniqueness that
Python guarantees); values are modelled by a type parameter so the same
dictionary operations serve both plain values (PyVal) and heap references
(HVal) in the small heap model used for the aliasing claims.

A central point of the embedding, on which several claims turn, is the
runtime behaviour of State.update_item (src/state.py lines 65-71):

    @classmethod
    def update_item(cls, first, second):
        super().update(first, second)

The zero-argument super() inside this classmethod is super(State, cls),
where cls is the class through which the call was made (StateDict or View,
reached from StateDict._update_item via self.__class__.update_item).  The
MRO of StateDict is [StateDict, dict, State, Updater, Updatable, ABC,
object]; the attribute search for "update" starts AFTER State, so it scans
Updater (no update attribute), then Updatable, where it finds the abstract
method Updatable.update, whose body is "pass".  A class-bound super proxy
returns that plain function unbound, so super().update(first, second)
executes the body "pass" with first as self: it returns None and raises
nothing, for every pair of arguments.  In particular it never raises
TypeError, so the "except TypeError: self[key] = val" fallback in
StateDict._update_item (lines 100-104) is dead code, and the guard in
Updater.update_item (which would raise TypeError on atomic originals) is
never executed because State overrides update_item without calling
super().update_item.  The commented-out line "# first.update(second)" in
the source records the evidently intended behaviour; the code as written
does not perform it.
-/

namespace PyState

/-- The only exception class that the merge path of the source can raise or
catch: the except clause in StateDict._update_item catches exactly
TypeError, and TypeError is the only exception named anywhere in the merge
code (Updater.update_item line 23). -/
inductive PyErr where
  | typeError

/-- Python values appearing in the claims: integers, strings, and lists
(lists are needed for the History claims, where list.extend iterates its
argument).  Dictionaries nested inside a heap are represented by references
(HVal.ref) in the heap model below. -/
inductive PyVal where
  | int : Int → PyVal
  | str : String → PyVal
  | list : List PyVal → PyVal

/-- The runtime classes of the mapping family: builtin dict, StateDict, and
View (the frozen-key subclass of StateDict).  Method dispatch in the source
is by runtime class, which matters because StateDict.copy returns a builtin
dict, whose update method is dict.update, not StateDict.update. -/
inductive PyCls where
  | dict
  | stateDict
  | view
deriving DecidableEq

/-- A Python dict body: insertion-ordered key/value entries. -/
abbrev Entries (α : Type) := List (String × α)

/-- The key list of a dict, in insertion order. -/
def keysOf {α : Type} (e : Entries α) : List String :=
  e.map Prod.fst

/-- Key lookup (dict __getitem__ as a partial function): first entry with
the given key.  On the unique-key lists Python produces this is the value
stored under the key. -/
def lookup {α : Type} : Entries α → String → Option α
  | [], _ => none
  | (k0, v0) :: rest, k => if k0 = k then some v0 else lookup rest k

/-- Key membership test (Python: key in self). -/
def containsKey {α : Type} (e : Entries α) (k : String) : Bool :=
  (lookup e k).isSome

/-- dict __setitem__ : replace the value of an existing key in place
(keeping its position, as Python dicts do), or append a new key at the
end. -/
def setKey {α : Type} : Entries α → String → α → Entries α
  | [], k, v => [(k, v)]
  | (k0, v0) :: rest, k, v =>
      if k0 = k then (k0, v) :: rest else (k0, v0) :: setKey rest k v

/-- Builtin dict.update with a mapping argument: assign every key/value
pair of the argument into the receiver, in iteration order. -/
def dictUpdate {α : Type} (self other : Entries α) : Entries α :=
  other.foldl (fun acc kv => setKey acc kv.1 kv.2) self

/-- Updatable.update (src/state.py lines 56-58): the abstract method whose
body is "pass".  Called directly (through the super proxy in
State.update_item) it returns None and raises nothing. -/
def Updatable.update {α : Type} (self other : α) : Except PyErr Unit :=
  Except.ok ()

/-- State.update_item (src/state.py lines 65-71): super().update(first,
second), which by the MRO trace in the header comment executes
Updatable.update, i.e. does nothing and never raises. -/
def update_item {α : Type} (first second : α) : Except PyErr Unit :=
  Updatable.update first second

/-- The try/except block of StateDict._update_item (lines 100-104), made
parametric in the outcome of the attempted update_item call: an ok outcome
leaves the dict unchanged, a TypeError outcome is caught and converted into
an overwrite of the key.  PyErr has no other constructor, so nothing can
propagate. -/
def tryExceptTypeError {α : Type} (attempt : Except PyErr Unit)
    (self : Entries α) (key : String) (val : α) : Except PyErr (Entries α) :=
  match attempt with
  | Except.ok _ => Except.ok self
  | Except.error PyErr.typeError => Except.ok (setKey self key val)

/-- StateDict._update_item (lines 100-104), exception-instrumented form:
try self.__class__.update_item(self[key], val); except TypeError:
self[key] = val.  The first argument of update_item is the existing value
self[key]; the loop only reaches this when the key is present, so the getD
default is never used. -/
def StateDict.updateItemExc {α : Type} (self : Entries α) (key : String)
    (val : α) : Except PyErr (Entries α) :=
  tryExceptTypeError (update_item ((lookup self key).getD val) val) self key val

/-- StateDict._update_item, pure form: since update_item returns ok on all
inputs (see header comment), the except branch never runs and the entry is
left unchanged.  The equality with the instrumented form is proved below
(updateItemExc_eq). -/
def StateDict.updateItemRun {α : Type} (self : Entries α) (key : String)
    (val : α) : Entries α :=
  match update_item ((lookup self key).getD val) val with
  | Except.ok _ => self
  | Except.error PyErr.typeError => setKey self key val

/-- StateDict._add_item (lines 106-107) together with the View override
(lines 124-125): the default inserts the new key, the View hook is a no-op.
Dispatch is on the runtime class of self. -/
def StateDict.addItem (cls : PyCls) {α : Type} (self : Entries α)
    (key : String) (val : α) : Entries α :=
  match cls with
  | PyCls.view => self
  | _ => setKey self key val

/-- StateDict.__update__ (lines 92-98): for key in other: if key in self,
_update_item, else _add_item.  Iteration is in the insertion order of
other. -/
def StateDict.updateLoop (cls : PyCls) {α : Type} :
    Entries α → Entries α → Entries α
  | self, [] => self
  | self, (k, v) :: rest =>
      if containsKey self k then
        StateDict.updateLoop cls (StateDict.updateItemRun self k v) rest
      else
        StateDict.updateLoop cls (StateDict.addItem cls self k v) rest

/-- StateDict.update (lines 109-113): builds the temporary
self.__class__(*args) and hands it to __update__.  With a single mapping
argument the temporary is created by dict.__init__ (View does not override
__init__, so _add_item is not involved in its construction) and therefore
holds exactly the key/value pairs of the argument; iterating it is
iterating the argument, so the embedding passes the argument entries
straight to the loop. -/
def StateDict.update (cls : PyCls) {α : Type} (self other : Entries α) :
    Entries α :=
  StateDict.updateLoop cls self other

/-- Exception-instrumented form of StateDict.__update__, propagating any
uncaught exception of a per-key step. -/
def StateDict.updateLoopExc (cls : PyCls) {α : Type} :
    Entries α → Entries α → Except PyErr (Entries α)
  | self, [] => Except.ok self
  | self, (k, v) :: rest =>
      if containsKey self k then
        match StateDict.updateItemExc self k v with
        | Except.ok s => StateDict.updateLoopExc cls s rest
        | Except.error e => Except.error e
      else
        StateDict.updateLoopExc cls (StateDict.addItem cls self k v) rest

/-- Exception-instrumented form of StateDict.update. -/
def StateDict.updateExc (cls : PyCls) {α : Type} (self other : Entries α) :
    Except PyErr (Entries α) :=
  StateDict.updateLoopExc cls self other

/-- A mapping object: its runtime class together with its dict body. -/
structure Obj (α : Type) where
  cls : PyCls
  entries : Entries α

/-- Builtin dict.copy: a fresh, independent, shallow duplicate of the
key/value structure, whose runtime class is the builtin dict even when the
receiver is a dict subclass. -/
def dictCopy {α : Type} (self : Obj α) : Obj α :=
  { cls := PyCls.dict, entries := self.entries }

/-- StateDict.copy (src/state.py lines 115-116): return super().copy(),
i.e. exactly builtin dict.copy.  View inherits this method. -/
def StateDict.copy {α : Type} (self : Obj α) : Obj α :=
  dictCopy self

/-- The update method of an object, dispatched on its runtime class: a
builtin dict runs dict.update; StateDict and View run StateDict.update
with their respective _add_item hooks. -/
def Obj.updateMeth {α : Type} (o : Obj α) (other : Entries α) : Obj α :=
  match o.cls with
  | PyCls.dict => { cls := PyCls.dict, entries := dictUpdate o.entries other }
  | PyCls.stateDict =>
      { cls := PyCls.stateDict
        entries := StateDict.update PyCls.stateDict o.entries other }
  | PyCls.view =>
      { cls := PyCls.view
        entries := StateDict.update PyCls.view o.entries other }

/-- State.__or__ (src/state.py lines 81-86): copy = self.copy();
copy.update(other); return copy.  Since self.copy() is a builtin dict, the
update call here dispatches to dict.update, not to StateDict.update. -/
def State.orOp {α : Type} (a b : Obj α) : Obj α :=
  Obj.updateMeth (StateDict.copy a) b.entries

/-- Heap values: atoms, or references to heap objects (nested dicts). -/
inductive HVal where
  | atom : PyVal → HVal
  | ref : Nat → HVal

/-- A heap of mapping objects; an address is an index into the list.  Used
to express aliasing and mutation claims: an operation that mutates an
object in place rewrites the cell at its address, an operation that
allocates appends a cell. -/
abbrev Heap := List (Obj HVal)

/-- Dereference an address (addresses produced by the model are always in
range; out-of-range reads return an empty builtin dict). -/
def heapGet (h : Heap) (a : Nat) : Obj HVal :=
  h.getD a { cls := PyCls.dict, entries := [] }

/-- Calling the update method of the object at address a with the given
argument entries: mutates exactly the cell at a, allocating nothing. -/
def heapUpdateAt (h : Heap) (a : Nat) (other : Entries HVal) : Heap :=
  h.set a (Obj.updateMeth (heapGet h a) other)

/-- Calling copy() on the object at address a: allocates a fresh builtin
dict with the same top-level entries and returns its address. -/
def heapCopyFrom (h : Heap) (a : Nat) : Heap × Nat :=
  (h ++ [StateDict.copy (heapGet h a)], h.length)

/-- State.__or__ on the heap: copy self, then run the update method of the
fresh copy on the entries of other, and return the address of the copy. -/
def heapOr (h : Heap) (a b : Nat) : Heap × Nat :=
  let p := heapCopyFrom h a
  (heapUpdateAt p.1 p.2 (heapGet p.1 b).entries, p.2)

/-- Python iteration over a value, as used by list.extend: lists yield
their elements, strings yield their one-character substrings, integers are
not iterable (iterating one raises TypeError). -/
def pyIter : PyVal → Option (List PyVal)
  | PyVal.list xs => some xs
  | PyVal.str s => some (s.data.map fun c => PyVal.str (String.mk [c]))
  | PyVal.int _ => none

/-- History.update (src/state.py lines 133-134): self.extend(other).
list.extend appends every element of its argument in order, and raises
TypeError when the argument is not iterable. -/
def History.update (self : List PyVal) (other : PyVal) :
    Except PyErr (List PyVal) :=
  match pyIter other with
  | some elems => Except.ok (self ++ elems)
  | none => Except.error PyErr.typeError

/-- History.push (src/state.py lines 136-137): self.update(item) - note
the item itself is passed to update, not the singleton list [item]. -/
def History.push (self : List PyVal) (item : PyVal) :
    Except PyErr (List PyVal) :=
  History.update self item

/-- A runtime type as needed by the capability protocol: its method
resolution order, each class listed with its name and the attribute names
of its own __dict__. -/
structure PyType where
  mro : List (String × List String)

/-- Whether a single class dict defines an attribute named update. -/
def definesUpdate (cd : String × List String) : Bool :=
  cd.2.contains "update"

/-- Updatable.__subclasshook__ (src/state.py lines 49-54): returns True
when some class along the MRO of the candidate defines update in its own
dict, otherwise NotImplemented (modelled as none), which makes issubclass
fall back to the ordinary inheritance check. -/
def Updatable.subclasshook (C : PyType) : Option Bool :=
  if C.mro.any definesUpdate then some true else none

/-- Ordinary inheritance from Updatable: Updatable occurs in the MRO. -/
def inheritsUpdatable (C : PyType) : Bool :=
  C.mro.any fun cd => cd.1 = "Updatable"

/-- issubclass(C, Updatable) under ABCMeta: consult the hook, fall back to
the inheritance check when the hook returns NotImplemented. -/
def issubclassUpdatable (C : PyType) : Bool :=
  match Updatable.subclasshook C with
  | some b => b
  | none => inheritsUpdatable C

/-- State.is_updatable (src/state.py lines 76-79): issubclass(C,
Updatable). -/
def State.isUpdatable (C : PyType) : Bool :=
  issubclassUpdatable C

/-- Updater.is_atomic (src/state.py lines 28-34): not cls.is_updatable(C).
For the mapping-state family the calling class resolves is_updatable to
State.is_updatable. -/
def Updater.isAtomic (C : PyType) : Bool :=
  !State.isUpdatable C

/-- Concrete runtime type for witnesses: the MRO of History, each class
with the attribute names of its own dict that matter here. -/
def historyType : PyType :=
  { mro := [("History", ["update", "push"]), ("list", ["append", "extend"]),
            ("Updatable", ["update"]), ("ABC", []), ("object", [])] }

/-- Concrete two-object heap for witnesses: a StateDict at address 0 and a
StateDict at address 1 whose key b references address 0. -/
def heap2 : Heap :=
  [ { cls := PyCls.stateDict, entries := [("a", HVal.atom (PyVal.int 1))] },
    { cls := PyCls.stateDict,
      entries := [("a", HVal.atom (PyVal.int 2)), ("b", HVal.ref 0)] } ]

/- Helper lemmas (shared; none of them is a claim theorem). -/

theorem lookup_setKey {α : Type} (e : Entries α) (k k' : String) (v : α) :
    lookup (setKey e k v) k' = if k = k' then some v else lookup e k' := by
  induction e with
  | nil =>
      by_cases h : k = k' <;> simp [setKey, lookup, h]
  | cons kv rest ih =>
      obtain ⟨k0, v0⟩ := kv
      by_cases h0 : k0 = k
      · subst h0
        by_cases h1 : k0 = k' <;> simp [setKey, lookup, h1]
      · by_cases h1 : k0 = k'
        · subst h1
          have hk : ¬ k = k0 := fun he => h0 he.symm
          simp [setKey, lookup, h0, hk]
        · simp [setKey, lookup, h0, h1, ih]

theorem lookup_eq_none_of_not_mem {α : Type} {e : Entries α} {k : String}
    (h : k ∉ keysOf e) : lookup e k = none := by
  induction e with
  | nil => rfl
  | cons kv rest ih =>
      obtain ⟨k0, v0⟩ := kv
      simp only [keysOf, List.map_cons, List.mem_cons, not_or] at h
      rw [lookup, if_neg (fun he => h.1 he.symm)]
      exact ih (by simpa [keysOf] using h.2)

theorem lookup_dictUpdate {α : Type} (be a : Entries α) (k : String)
    (hnd : (keysOf be).Nodup) :
    lookup (dictUpdate a be) k = (lookup be k).or (lookup a k) := by
  induction be generalizing a with
  | nil => simp [dictUpdate, lookup]
  | cons kv rest ih =>
      obtain ⟨k0, v0⟩ := kv
      have hnd2 : (k0 :: keysOf rest).Nodup := by simpa [keysOf] using hnd
      obtain ⟨hk0, hnd'⟩ := List.nodup_cons.mp hnd2
      have hstep : dictUpdate a ((k0, v0) :: rest) = dictUpdate (setKey a k0 v0) rest := rfl
      rw [hstep, ih (setKey a k0 v0) hnd']
      by_cases h : k0 = k
      · subst h
        rw [lookup_eq_none_of_not_mem hk0]
        simp [lookup, lookup_setKey]
      · simp [lookup, h, lookup_setKey]

theorem containsKey_dictUpdate {α : Type} (be a : Entries α) (k : String)
    (hnd : (keysOf be).Nodup) :
    containsKey (dictUpdate a be) k = (containsKey a k || containsKey be k) := by
  rw [containsKey, lookup_dictUpdate be a k hnd]
  cases hb : lookup be k <;> simp [containsKey, hb, Option.or]

theorem view_updateLoop_id {α : Type} (other self : Entries α) :
    StateDict.updateLoop PyCls.view self other = self := by
  induction other generalizing self with
  | nil => rfl
  | cons kv rest ih =>
      obtain ⟨k, v⟩ := kv
      by_cases h : containsKey self k <;>
        simp [StateDict.updateLoop, h, StateDict.updateItemRun, update_item,
          Updatable.update, StateDict.addItem, ih]

theorem updateLoopExc_eq_ok {α : Type} (cls : PyCls) (other self : Entries α) :
    StateDict.updateLoopExc cls self other =
      Except.ok (StateDict.updateLoop cls self other) := by
  induction other generalizing self with
  | nil => rfl
  | cons kv rest ih =>
      obtain ⟨k, v⟩ := kv
      by_cases h : containsKey self k <;>
        simp [StateDict.updateLoopExc, StateDict.updateLoop, h,
          StateDict.updateItemExc, StateDict.updateItemRun, tryExceptTypeError,
          update_item, Updatable.update, ih]

/- Claim theorems. -/

/-- Claim C1, refuted by evaluation: updating the plain StateDict with
entries x maps to 1 by the mapping with x maps to 2.  The claim says the
colliding key must take the incoming value 2 (the existing value is
atomic), but the code leaves the old value 1: the per-key merge call in
StateDict._update_item resolves to the pass body of Updatable.update,
which never raises, so neither a recursive merge nor the except-TypeError
overwrite ever happens. -/
theorem c1_colliding_key_keeps_old_value :
    StateDict.update PyCls.stateDict [("x", PyVal.int 1)] [("x", PyVal.int 2)]
      = [("x", PyVal.int 1)] := rfl

/-- Claim C2: for every frozen-key (View) state F and every mapping other,
the key set of F after F.update(other) equals the key set before the call.
In the code this holds in the strongest possible form: the View update
changes nothing at all (existing keys are left alone by the no-op merge
path, new keys are dropped by the no-op _add_item), so in particular the
key set is preserved. -/
theorem c2_view_update_preserves_keys (F other : Entries PyVal) :
    keysOf (StateDict.update PyCls.view F other) = keysOf F := by
  rw [StateDict.update, view_updateLoop_id]

/-- Claim C3, refuted by evaluation: the frozen-key scenario.  The claim
(and the spec) say View with a maps to 1, b maps to 2, updated by a maps
to 10 and c maps to 99, yields a maps to 10 and b maps to 2.  The code
instead yields the original mapping unchanged: key c is indeed dropped,
but key a keeps its old value 1 because the merge path is a no-op that
never raises, so the overwrite branch is dead. -/
theorem c3_frozen_scenario_actual_result :
    StateDict.update PyCls.view
      [("a", PyVal.int 1), ("b", PyVal.int 2)]
      [("a", PyVal.int 10), ("c", PyVal.int 99)]
      = [("a", PyVal.int 1), ("b", PyVal.int 2)] := rfl

/-- Claim C4: update never surfaces an exception to the caller.  First
conjunct: for every mapping state (any runtime class) and every mapping
argument, the exception-instrumented update returns ok with the pure
update result, so no exception escapes.  Second conjunct: the try/except
block of StateDict._update_item converts a TypeError outcome of the
attempted per-key merge into an overwrite of that key and an ok result,
never propagating it. -/
theorem c4_update_never_raises :
    (∀ (cls : PyCls) (self other : Entries PyVal),
        StateDict.updateExc cls self other
          = Except.ok (StateDict.update cls self other))
  ∧ (∀ (self : Entries PyVal) (k : String) (v : PyVal),
        tryExceptTypeError (Except.error PyErr.typeError) self k v
          = Except.ok (setKey self k v)) := by
  constructor
  · intro cls self other
    exact updateLoopExc_eq_ok cls other self
  · intro self k v
    rfl

/-- Claim C5: computing C as A or-merged with B leaves both operands (and
every other pre-existing heap object, hence the full structural snapshots)
unchanged, and the or operator is the one combination that returns a new
container: its result is a fresh address, while the update method
allocates nothing and rewrites only the cell of its receiver. -/
theorem c5_or_never_mutates_operands (h : Heap) (a b : Nat)
    (ha : a < h.length) (hb : b < h.length) :
    (heapOr h a b).1[a]? = h[a]?
  ∧ (heapOr h a b).1[b]? = h[b]?
  ∧ (∀ i, i < h.length → (heapOr h a b).1[i]? = h[i]?)
  ∧ (heapOr h a b).2 = h.length
  ∧ (∀ (g : Heap) (x : Nat) (e : Entries HVal),
        (heapUpdateAt g x e).length = g.length
      ∧ ∀ j, j ≠ x → (heapUpdateAt g x e)[j]? = g[j]?) := by
  have hpre : ∀ i, i < h.length → (heapOr h a b).1[i]? = h[i]? := by
    intro i hi
    show ((h ++ [StateDict.copy (heapGet h a)]).set h.length _)[i]? = h[i]?
    rw [List.getElem?_set_ne (by omega)]
    exact List.getElem?_append_left hi
  refine ⟨hpre a ha, hpre b hb, hpre, rfl, ?_⟩
  intro g x e
  constructor
  · exact List.length_set g x _
  · intro j hj
    exact List.getElem?_set_ne (fun he => hj he.symm)

/-- Claim C5 witness: the two-object heap heap2 satisfies the address
bounds and the conclusion. -/
theorem c5_or_never_mutates_operands_witness :
    0 < heap2.length
  ∧ 1 < heap2.length
  ∧ ((heapOr heap2 0 1).1[0]? = heap2[0]?
    ∧ (heapOr heap2 0 1).1[1]? = heap2[1]?
    ∧ (∀ i, i < heap2.length → (heapOr heap2 0 1).1[i]? = heap2[i]?)
    ∧ (heapOr heap2 0 1).2 = heap2.length
    ∧ (∀ (g : Heap) (x : Nat) (e : Entries HVal),
          (heapUpdateAt g x e).length = g.length
        ∧ ∀ j, j ≠ x → (heapUpdateAt g x e)[j]? = g[j]?)) :=
  ⟨by decide, by decide,
    c5_or_never_mutates_operands heap2 0 1 (by decide) (by decide)⟩

/-- Claim C6, refuted by evaluation: copy on a StateDict does not return a
container of the callers own type.  StateDict.copy returns super().copy(),
the builtin dict shallow copy, whose runtime class is the builtin dict,
not StateDict, contradicting the claim (and the source annotations
State.copy returning State and StateDict.copy returning StateDict). -/
theorem c6_copy_returns_plain_dict :
    (StateDict.copy
        { cls := PyCls.stateDict, entries := [("a", PyVal.int 1)] }).cls
      = PyCls.dict
  ∧ PyCls.dict ≠ PyCls.stateDict := by
  exact ⟨rfl, by decide⟩

/-- Claim C7, refuted by evaluation: push is not equivalent to update with
the singleton list.  History.push(5) on the log [1, 2, 3, 4] calls
self.update(5), i.e. self.extend(5), which raises TypeError because an
integer is not iterable, while History.update([5]) appends the single
element 5 as the claim expects of push. -/
theorem c7_push_raises_on_atomic_item :
    History.push [PyVal.int 1, PyVal.int 2, PyVal.int 3, PyVal.int 4]
        (PyVal.int 5)
      = Except.error PyErr.typeError
  ∧ History.update [PyVal.int 1, PyVal.int 2, PyVal.int 3, PyVal.int 4]
        (PyVal.list [PyVal.int 5])
      = Except.ok
          [PyVal.int 1, PyVal.int 2, PyVal.int 3, PyVal.int 4, PyVal.int 5] :=
  ⟨rfl, rfl⟩

/-- Claim C8: merging with an empty container is a no-op.  First conjunct:
the non-mutating path, copy then update with the empty mapping, returns a
container with exactly the entries of A (structural equality of contents).
Second conjunct: the update method applied to A itself with an empty other
returns A unchanged, whatever the runtime class of A. -/
theorem c8_update_with_empty_is_noop (A : Obj PyVal) :
    (Obj.updateMeth (StateDict.copy A) []).entries = A.entries
  ∧ Obj.updateMeth A [] = A := by
  obtain ⟨cls, e⟩ := A
  cases cls <;> exact ⟨rfl, rfl⟩

/-- Claim C9: for every runtime type C (well formed in that if Updatable
occurs in its MRO then some class dict along the MRO defines update, which
holds of every actual Python class because Updatable itself defines
update), State.is_updatable(C) is true exactly when some class along the
MRO of C defines an update attribute, and Updater.is_atomic is its exact
negation. -/
theorem c9_isUpdatable_iff_defines_update (C : PyType)
    (hwf : inheritsUpdatable C = true → C.mro.any definesUpdate = true) :
    (State.isUpdatable C = true ↔ C.mro.any definesUpdate = true)
  ∧ Updater.isAtomic C = !State.isUpdatable C := by
  constructor
  · cases h : C.mro.any definesUpdate with
    | true =>
        simp [State.isUpdatable, issubclassUpdatable, Updatable.subclasshook, h]
    | false =>
        have hni : inheritsUpdatable C = false := by
          cases hi : inheritsUpdatable C with
          | true => rw [hwf hi] at h; cases h
          | false => rfl
        simp [State.isUpdatable, issubclassUpdatable, Updatable.subclasshook,
          h, hni]
  · rfl

/-- Claim C9 witness: the concrete MRO of History satisfies the hypothesis
and the conclusion. -/
theorem c9_isUpdatable_iff_defines_update_witness :
    (inheritsUpdatable historyType = true
        → historyType.mro.any definesUpdate = true)
  ∧ ((State.isUpdatable historyType = true
        ↔ historyType.mro.any definesUpdate = true)
    ∧ Updater.isAtomic historyType = !State.isUpdatable historyType) :=
  ⟨fun _ => by decide,
    c9_isUpdatable_iff_defines_update historyType (fun _ => by decide)⟩

/-- Claim C10: the non-mutating merge of a frozen-key View F with any
mapping B returns a builtin dict (not a View), because copy() delegates to
the builtin dict shallow copy and the subsequent update call therefore
dispatches to the builtin dict.update; consequently the result holds every
key of F and of B (new keys of B are admitted, bypassing the frozen-key
add hook), and every key of B takes the value of B wholesale (bypassing
the recursive merge dispatch). -/
theorem c10_view_or_returns_plain_dict_union (bcls : PyCls)
    (fe be : Entries PyVal) (hnd : (keysOf be).Nodup) :
    (State.orOp { cls := PyCls.view, entries := fe }
        { cls := bcls, entries := be }).cls = PyCls.dict
  ∧ (∀ k, containsKey
        (State.orOp { cls := PyCls.view, entries := fe }
          { cls := bcls, entries := be }).entries k
        = (containsKey fe k || containsKey be k))
  ∧ (∀ k, containsKey be k = true →
        lookup (State.orOp { cls := PyCls.view, entries := fe }
          { cls := bcls, entries := be }).entries k = lookup be k) := by
  refine ⟨rfl, ?_, ?_⟩
  · intro k
    exact containsKey_dictUpdate be fe k hnd
  · intro k hk
    show lookup (dictUpdate fe be) k = lookup be k
    rw [lookup_dictUpdate be fe k hnd]
    rw [containsKey] at hk
    cases hb : lookup be k with
    | none => rw [hb] at hk; cases hk
    | some v => simp [hb, Option.or]

/-- Claim C10 witness: the spec scenario entries (a maps to 1, b maps to 2
for F; a maps to 10, c maps to 99 for B, with B a View) satisfy the
no-duplicate-keys hypothesis and the conclusion. -/
theorem c10_view_or_returns_plain_dict_union_witness :
    (keysOf [("a", PyVal.int 10), ("c", PyVal.int 99)]).Nodup
  ∧ ((State.orOp
        { cls := PyCls.view, entries := [("a", PyVal.int 1), ("b", PyVal.int 2)] }
        { cls := PyCls.view, entries := [("a", PyVal.int 10), ("c", PyVal.int 99)] }).cls
      = PyCls.dict
    ∧ (∀ k, containsKey
          (State.orOp
            { cls := PyCls.view, entries := [("a", PyVal.int 1), ("b", PyVal.int 2)] }
            { cls := PyCls.view, entries := [("a", PyVal.int 10), ("c", PyVal.int 99)] }).entries k
          = (containsKey [("a", PyVal.int 1), ("b", PyVal.int 2)] k
            || containsKey [("a", PyVal.int 10), ("c", PyVal.int 99)] k))
    ∧ (∀ k, containsKey [("a", PyVal.int 10), ("c", PyVal.int 99)] k = true →
          lookup (State.orOp
            { cls := PyCls.view, entries := [("a", PyVal.int 1), ("b", PyVal.int 2)] }
            { cls := PyCls.view, entries := [("a", PyVal.int 10), ("c", PyVal.int 99)] }).entries k
          = lookup [("a", PyVal.int 10), ("c", PyVal.int 99)] k)) :=
  ⟨by decide,
    c10_view_or_returns_plain_dict_union PyCls.view
      [("a", PyVal.int 1), ("b", PyVal.int 2)]
      [("a", PyVal.int 10), ("c", PyVal.int 99)] (by decide)⟩

end PyState
